import Mathlib

/-!
Shallow embedding of the OCR document-intelligence core
(src/ocr-service/src/ocr_engine.h, src/ocr-service/src/ocr_engine.cpp, and the
batch-average lambda of src/ocr-service/src/api_handler.cpp).

The external collaborators (the OpenCV raster library, leptonica's pixCreate
and the Tesseract recognition primitive) are modelled as abstract bundles of
operations over an abstract image type, per the interface contract the core
relies on; the core logic itself (preprocessing pipeline order, deskew policy,
recognition-result assembly, document classification, regex field extraction,
batch aggregation, and engine lifecycle) is translated statement by statement
from the C++ source.  C++ value copies (cv::Mat::clone, returning by value)
are identities in this pure-value model.  Doubles are modelled as rationals.
The C++ field `initialized_` is called `inited_` here.
-/

/-- cv::Rect as built at ocr_engine.cpp:116: x, y, width, height. -/
structure Rect where
  x : Int
  y : Int
  width : Int
  height : Int
deriving DecidableEq, Repr

/-- One position of the Tesseract word-level result iterator
(ocr_engine.cpp:105-122).  GetUTF8Text may return null, hence the word is
an Option; the bounding box is reported as left, top, right, bottom. -/
structure WordSegment where
  word : Option String
  conf : Rat
  left : Int
  top : Int
  right : Int
  bottom : Int
deriving DecidableEq, Repr

/-- Output of one recognition pass of the external primitive:
GetUTF8Text (may be null), MeanTextConf, and GetIterator (may be null;
otherwise a finite single-pass sequence of word-level segments). -/
structure RecognizerOutput where
  text : Option String
  meanConf : Rat
  iter : Option (List WordSegment)
deriving DecidableEq, Repr

/-- The external text-recognition primitive (tesseract::TessBaseAPI):
given the configured language and a single-channel raster, produce the
recognition output.  SetImage / GetUTF8Text / MeanTextConf / GetIterator
of one call are bundled into one function. -/
structure Recognizer (Img : Type) where
  recognize : String → Img → RecognizerOutput

/-- A contour as produced by cv::findContours: a vector of integer points. -/
abbrev Contour : Type := List (Int × Int)

/-- The external raster library (OpenCV, plus leptonica's pixCreate),
abstracted over the image type.  Fixed parameters of the C++ calls
(adaptiveThreshold 255/GAUSSIAN/BINARY/11/2, GaussianBlur 3x3,
morphologyEx CLOSE with a 2x2 rect kernel, RETR_EXTERNAL contours)
are folded into the corresponding abstract operation.  `rotate` takes the
center point and the angle of getRotationMatrix2D.  `pixCreateOk` models
whether pixCreate succeeds on the given raster. -/
structure CVOps (Img : Type) where
  imread : String → Option Img
  channels : Img → Nat
  cols : Img → Nat
  rows : Img → Nat
  cvtColorGray : Img → Img
  equalizeHist : Img → Img
  adaptiveThreshold : Img → Img
  gaussianBlur : Img → Img
  morphologyClose : Img → Img
  findContours : Img → List Contour
  contourArea : Contour → Rat
  minAreaRectAngle : Contour → Rat
  rotate : Img → Rat × Rat → Rat → Img
  pixCreateOk : Img → Bool

/-- struct OCRResult (ocr_engine.h:10-16). -/
structure OCRResult where
  text : String
  confidence : Rat
  bounding_boxes : List Rect
  words : List String
  word_confidences : List Rat
deriving DecidableEq, Repr

/-- Value-initialized OCRResult{} (empty text, confidence 0, empty vectors). -/
def OCRResult.zero : OCRResult :=
  { text := "", confidence := 0, bounding_boxes := [], words := [], word_confidences := [] }

/-- struct DocumentInfo (ocr_engine.h:18-23).  extracted_data is a
std::map from field name to value; since each key is inserted at most once,
it is modelled as an association list in insertion order. -/
structure DocumentInfo where
  document_type : String
  detected_fields : List String
  extracted_data : List (String × String)
  overall_confidence : Rat
deriving DecidableEq, Repr

/-- Zero-valued DocumentInfo{}. -/
def DocumentInfo.zero : DocumentInfo :=
  { document_type := "", detected_fields := [], extracted_data := [], overall_confidence := 0 }

/-- The OCREngine configuration and lifecycle fields (ocr_engine.h:49-59).
`tessApiPresent` tracks whether the tess_api_ unique_ptr holds an object;
`inited_` is the C++ `initialized_` flag. -/
structure EngineState where
  tessApiPresent : Bool
  language_ : String
  confidence_threshold_ : Rat
  preprocessing_enabled_ : Bool
  inited_ : Bool
deriving DecidableEq, Repr

/-- OCREngine::OCREngine (ocr_engine.cpp:6-8). -/
def newEngine : EngineState :=
  { tessApiPresent := false, language_ := "eng", confidence_threshold_ := 60,
    preprocessing_enabled_ := true, inited_ := false }

/-- OCREngine::initialize (ocr_engine.cpp:14-36).  The TessBaseAPI object is
created first; the outcome of the external Init call is the parameter
`initOk` (the C++ call returns nonzero on failure).  Returns the C++
boolean result paired with the state after the call. -/
def initEngine (st : EngineState) (initOk : Bool) : Bool × EngineState :=
  let st1 := { st with tessApiPresent := true }
  if initOk then (true, { st1 with inited_ := true }) else (false, st1)

/-- OCREngine::cleanup (ocr_engine.cpp:38-44): release the recognition
context and clear the flag. -/
def cleanup (st : EngineState) : EngineState :=
  { st with tessApiPresent := false, inited_ := false }

/-- OCREngine::setLanguage (ocr_engine.cpp:199-206): store the language;
if currently in the ready state, tear the context down and re-run the
init sequence (whose external outcome is `initOk`). -/
def setLanguage (st : EngineState) (language : String) (initOk : Bool) : EngineState :=
  let st1 := { st with language_ := language }
  if st1.inited_ then (initEngine (cleanup st1) initOk).2 else st1

/-- OCREngine::setConfidenceThreshold (ocr_engine.cpp:208-210). -/
def setConfidenceThreshold (st : EngineState) (threshold : Rat) : EngineState :=
  { st with confidence_threshold_ := threshold }

/-- OCREngine::enablePreprocessing (ocr_engine.cpp:212-214). -/
def enablePreprocessing (st : EngineState) (enable : Bool) : EngineState :=
  { st with preprocessing_enabled_ := enable }

/-- OCREngine::enhanceImage (ocr_engine.cpp:232-242): histogram
equalization then adaptive threshold. -/
def enhanceImage {Img : Type} (cv : CVOps Img) (input : Img) : Img :=
  cv.adaptiveThreshold (cv.equalizeHist input)

/-- OCREngine::removeNoise (ocr_engine.cpp:244-255): Gaussian blur then
morphological closing. -/
def removeNoise {Img : Type} (cv : CVOps Img) (input : Img) : Img :=
  cv.morphologyClose (cv.gaussianBlur input)

/-- Angle adjustment of OCREngine::deskewImage (ocr_engine.cpp:283-285). -/
def adjustAngle (angle : Rat) : Rat :=
  if angle < -45 then 90 + angle else angle

/-- std::max_element over the contours with the area comparator
(ocr_engine.cpp:269-272): the first contour of maximum area. -/
def maxAreaContour {Img : Type} (cv : CVOps Img) (c : Contour) (rest : List Contour) : Contour :=
  rest.foldl (fun best x => if cv.contourArea best < cv.contourArea x then x else best) c

/-- OCREngine::deskewImage (ocr_engine.cpp:257-295).  The
`max_contour == contours.end()` check is unreachable when the contour list
is nonempty and is subsumed by the empty-list case. -/
def deskewImage {Img : Type} (cv : CVOps Img) (input : Img) : Img :=
  match cv.findContours input with
  | [] => input
  | c :: rest =>
    let angle := adjustAngle (cv.minAreaRectAngle (maxAreaContour cv c rest))
    if (1 : Rat) / 2 < |angle| then
      cv.rotate input ((cv.cols input : Rat) / 2, (cv.rows input : Rat) / 2) angle
    else input

/-- OCREngine::preprocessImage (ocr_engine.cpp:216-230): grayscale if
multi-channel, then enhance, denoise, deskew in that order. -/
def preprocessImage {Img : Type} (cv : CVOps Img) (input : Img) : Img :=
  let processed := if 1 < cv.channels input then cv.cvtColorGray input else input
  deskewImage cv (removeNoise cv (enhanceImage cv processed))

/-- The cv::Rect constructed at ocr_engine.cpp:116 from a word segment's
BoundingBox output: Rect(left, top, right - left, bottom - top). -/
def segRect (s : WordSegment) : Rect :=
  { x := s.left, y := s.top, width := s.right - s.left, height := s.bottom - s.top }

/-- The word-iterator loop of OCREngine::extractTextFromMat
(ocr_engine.cpp:107-120): for each segment whose GetUTF8Text is non-null,
append word, confidence and bounding box to the three parallel vectors,
in emission order. -/
def collectWords : List WordSegment → List String × List Rat × List Rect
  | [] => ([], [], [])
  | s :: rest =>
    let r := collectWords rest
    match s.word with
    | some w => (w :: r.1, s.conf :: r.2.1, segRect s :: r.2.2)
    | none => r

/-- Lines 65-73 of ocr_engine.cpp: the raster handed to the primitive is the
grayscale conversion of the (possibly preprocessed) clone of the input. -/
def grayOf {Img : Type} (cv : CVOps Img) (st : EngineState) (image : Img) : Img :=
  cv.cvtColorGray (if st.preprocessing_enabled_ then preprocessImage cv image else image)

/-- Lines 95-122 of ocr_engine.cpp: assemble the OCRResult from one
recognition pass: full text (empty when GetUTF8Text is null), mean
confidence, and the collected word-level vectors (empty when GetIterator
is null). -/
def assembleResult (out : RecognizerOutput) : OCRResult :=
  match out.iter with
  | some segs =>
      { text := out.text.getD "", confidence := out.meanConf,
        bounding_boxes := (collectWords segs).2.2, words := (collectWords segs).1,
        word_confidences := (collectWords segs).2.1 }
  | none =>
      { text := out.text.getD "", confidence := out.meanConf,
        bounding_boxes := [], words := [], word_confidences := [] }

/-- OCREngine::extractTextFromMat (ocr_engine.cpp:56-131).  If the engine is
not in the ready state, return the zero OCRResult.  Otherwise preprocess
when enabled, convert to grayscale, copy into a Pix byte-for-byte (if
pixCreate fails, return the partial result assembled so far, whose
uninitialized confidence is modelled as 0), run the primitive and assemble
the result. -/
def extractTextFromMat {Img : Type} (cv : CVOps Img) (rec : Recognizer Img)
    (st : EngineState) (image : Img) : OCRResult :=
  if st.inited_ = false then OCRResult.zero
  else if cv.pixCreateOk (grayOf cv st image) = false then
    { text := "", confidence := 0, bounding_boxes := [], words := [], word_confidences := [] }
  else assembleResult (rec.recognize st.language_ (grayOf cv st image))

/-- OCREngine::extractText (ocr_engine.cpp:46-54): load the image from the
path; on load failure return OCRResult{}. -/
def extractText {Img : Type} (cv : CVOps Img) (rec : Recognizer Img)
    (st : EngineState) (image_path : String) : OCRResult :=
  match cv.imread image_path with
  | none => OCRResult.zero
  | some image => extractTextFromMat cv rec st image

/-- The ::tolower of ocr_engine.cpp:155 in the C locale: lower-case
ASCII letters only. -/
def asciiLower (c : Char) : Char :=
  if 'A' ≤ c ∧ c ≤ 'Z' then Char.ofNat (c.toNat + 32) else c

/-- std::transform with ::tolower over the whole string
(ocr_engine.cpp:154-155). -/
def toLowerStr (s : String) : String := String.mk (s.toList.map asciiLower)

/-- std::string::find(pat) != npos, over character lists. -/
def strFindList (pat : List Char) : List Char → Bool
  | [] => pat.isEmpty
  | h :: t => pat.isPrefixOf (h :: t) || strFindList pat t

/-- std::string::find(pat) != npos (ocr_engine.cpp:157-166). -/
def strContains (hay pat : String) : Bool := strFindList pat.toList hay.toList

/-- The cascading document-type detection of OCREngine::analyzeDocumentFromMat
(ocr_engine.cpp:153-170). -/
def documentType (text : String) : String :=
  let text_lower := toLowerStr text
  if strContains text_lower "invoice" || strContains text_lower "bill" then "invoice"
  else if strContains text_lower "receipt" then "receipt"
  else if strContains text_lower "contract" || strContains text_lower "agreement" then "contract"
  else if strContains text_lower "financial" || strContains text_lower "report" then "financial_report"
  else "unknown"

/-- The \s character class of the ECMAScript regex at ocr_engine.cpp:175
(ASCII whitespace). -/
def isSpaceCh (c : Char) : Bool :=
  c = ' ' || c = '\t' || c = '\n' || c = '\x0b' || c = '\x0c' || c = '\r'

/-- Case-insensitive literal match of the field name at the head of the
text (regex_constants::icase over ASCII), returning the remainder. -/
def dropPrefixICase : List Char → List Char → Option (List Char)
  | [], cs => some cs
  | _ :: _, [] => none
  | p :: ps, c :: cs => if asciiLower p = asciiLower c then dropPrefixICase ps cs else none

/-- Greedy match of the regex tail `\s*([^\n]+)` with ECMAScript
backtracking: prefer consuming a whitespace character into `\s*` and
matching further right; on failure, start the capture here provided the
character is not a newline.  Returns the captured group. -/
def greedyValue : List Char → Option (List Char)
  | [] => none
  | c :: rest =>
    if isSpaceCh c then
      match greedyValue rest with
      | some v => some v
      | none =>
        if c = '\n' then none
        else some ((c :: rest).takeWhile (fun d => d != '\n'))
    else some ((c :: rest).takeWhile (fun d => d != '\n'))

/-- Attempt to match the regex `<field>\s*[:=]\s*([^\n]+)` (icase) anchored
at the head of `cs`; since neither separator is whitespace, the greedy
first `\s*` never backtracks and is a maximal munch. -/
def matchFieldAt (field : List Char) (cs : List Char) : Option (List Char) :=
  match dropPrefixICase field cs with
  | none => none
  | some rest =>
    match rest.dropWhile isSpaceCh with
    | [] => none
    | c :: rest2 => if c = ':' ∨ c = '=' then greedyValue rest2 else none

/-- std::regex_search (ocr_engine.cpp:177): first (leftmost) position at
which the field pattern matches, returning the captured value group. -/
def searchField (field : List Char) : List Char → Option (List Char)
  | [] => matchFieldAt field []
  | c :: rest =>
    match matchFieldAt field (c :: rest) with
    | some v => some v
    | none => searchField field rest

/-- The fixed field list of ocr_engine.cpp:173. -/
def fieldsList : List String := ["date", "amount", "total", "name", "address", "phone", "email"]

/-- std::regex_search of the field pattern over a text, on whole strings. -/
def searchFieldS (field text : String) : Option (List Char) :=
  searchField field.toList text.toList

/-- The field-extraction loop of ocr_engine.cpp:172-181: iterate the fixed
field list; on a regex match record the captured value in extracted_data
and append the field to detected_fields. -/
def extractFields (text : String) : List (String × String) × List String :=
  fieldsList.foldl
    (fun acc field =>
      match searchFieldS field text with
      | some v => (acc.1 ++ [(field, String.mk v)], acc.2 ++ [field])
      | none => acc)
    ([], [])

/-- OCREngine::analyzeDocumentFromMat (ocr_engine.cpp:143-186). -/
def analyzeDocumentFromMat {Img : Type} (cv : CVOps Img) (rec : Recognizer Img)
    (st : EngineState) (image : Img) : DocumentInfo :=
  let ocr_result := extractTextFromMat cv rec st image
  if ocr_result.text = "" then DocumentInfo.zero
  else
    let fe := extractFields ocr_result.text
    { document_type := documentType ocr_result.text,
      detected_fields := fe.2,
      extracted_data := fe.1,
      overall_confidence := ocr_result.confidence }

/-- OCREngine::analyzeDocument (ocr_engine.cpp:133-141). -/
def analyzeDocument {Img : Type} (cv : CVOps Img) (rec : Recognizer Img)
    (st : EngineState) (image_path : String) : DocumentInfo :=
  match cv.imread image_path with
  | none => DocumentInfo.zero
  | some image => analyzeDocumentFromMat cv rec st image

/-- OCREngine::processBatch (ocr_engine.cpp:188-197): push one result per
path, in loop order. -/
def processBatch {Img : Type} (cv : CVOps Img) (rec : Recognizer Img)
    (st : EngineState) (image_paths : List String) : List OCRResult :=
  image_paths.foldl (fun results path => results ++ [extractText cv rec st path]) []

/-- The average_confidence lambda of APIHandler::handleBatchProcessing
(api_handler.cpp:182-189): 0 for an empty batch, else the arithmetic mean
of the per-item confidences. -/
def averageConfidence (results : List OCRResult) : Rat :=
  if results.isEmpty then 0
  else (results.map OCRResult.confidence).sum / (results.length : Rat)

/-- A trivial instantiation of the raster collaborator on the unit image
type, used to evaluate the engine on concrete inputs. -/
def cvU : CVOps Unit :=
  { imread := fun _ => none,
    channels := fun _ => 1,
    cols := fun _ => 0,
    rows := fun _ => 0,
    cvtColorGray := fun i => i,
    equalizeHist := fun i => i,
    adaptiveThreshold := fun i => i,
    gaussianBlur := fun i => i,
    morphologyClose := fun i => i,
    findContours := fun _ => [],
    contourArea := fun _ => 0,
    minAreaRectAngle := fun _ => 0,
    rotate := fun i _ _ => i,
    pixCreateOk := fun _ => true }

/-- A concrete word segment. -/
def seg1 : WordSegment :=
  { word := some "hi", conf := 90, left := 0, top := 0, right := 5, bottom := 7 }

/-- A concrete recognizer producing one word. -/
def recU : Recognizer Unit :=
  { recognize := fun _ _ => { text := some "hello", meanConf := 80, iter := some [seg1] } }

/-- A concrete recognizer producing no text (GetUTF8Text null,
GetIterator null). -/
def recE : Recognizer Unit :=
  { recognize := fun _ _ => { text := none, meanConf := 0, iter := none } }

/-- A concrete recognizer producing a document text with labeled fields. -/
def recDoc : Recognizer Unit :=
  { recognize := fun _ _ =>
      { text := some "Invoice contract Total: $450.00\nDate=2024-01-05",
        meanConf := 77, iter := some [] } }

/-- An engine state in the ready configuration. -/
def stReady : EngineState :=
  { tessApiPresent := true, language_ := "eng", confidence_threshold_ := 60,
    preprocessing_enabled_ := true, inited_ := true }

/-- A raster collaborator on the unit image type whose contour pass finds one
contour with minimum-area-rect angle -50 degrees. -/
def cvC : CVOps Unit :=
  { cvU with
    findContours := fun _ => [[((0 : Int), (0 : Int))]],
    minAreaRectAngle := fun _ => -50 }

/-- The words component of the iterator loop is the emission-order sequence of
the non-null segment texts. -/
theorem collectWords_words (segs : List WordSegment) :
    (collectWords segs).1 = segs.filterMap WordSegment.word := by
  induction segs with
  | nil => rfl
  | cons s rest ih => cases h : s.word <;> simp [collectWords, h, ih]

/-- The confidences component is the confidence of each non-null segment, in
emission order. -/
theorem collectWords_confs (segs : List WordSegment) :
    (collectWords segs).2.1 = (segs.filter (fun s => s.word.isSome)).map WordSegment.conf := by
  induction segs with
  | nil => rfl
  | cons s rest ih => cases h : s.word <;> simp [collectWords, h, ih]

/-- The bounding-boxes component is the box of each non-null segment, in
emission order. -/
theorem collectWords_boxes (segs : List WordSegment) :
    (collectWords segs).2.2 = (segs.filter (fun s => s.word.isSome)).map segRect := by
  induction segs with
  | nil => rfl
  | cons s rest ih => cases h : s.word <;> simp [collectWords, h, ih]

/-- The three vectors grow in lockstep: words and word confidences. -/
theorem collectWords_len_wc (segs : List WordSegment) :
    (collectWords segs).1.length = (collectWords segs).2.1.length := by
  induction segs with
  | nil => rfl
  | cons s rest ih => cases h : s.word <;> simp [collectWords, h, ih]

/-- The three vectors grow in lockstep: word confidences and boxes. -/
theorem collectWords_len_cb (segs : List WordSegment) :
    (collectWords segs).2.1.length = (collectWords segs).2.2.length := by
  induction segs with
  | nil => rfl
  | cons s rest ih => cases h : s.word <;> simp [collectWords, h, ih]

/-- Every OCRResult out of extractTextFromMat carries parallel vectors. -/
theorem extractTextFromMat_parallel {Img : Type} (cv : CVOps Img) (rec : Recognizer Img)
    (st : EngineState) (image : Img) :
    (extractTextFromMat cv rec st image).words.length =
      (extractTextFromMat cv rec st image).word_confidences.length ∧
    (extractTextFromMat cv rec st image).word_confidences.length =
      (extractTextFromMat cv rec st image).bounding_boxes.length := by
  rw [extractTextFromMat]
  by_cases h1 : st.inited_ = false
  · simp [h1, OCRResult.zero]
  · rw [if_neg h1]
    by_cases h2 : cv.pixCreateOk (grayOf cv st image) = false
    · simp [h2]
    · rw [if_neg h2, assembleResult]
      cases h3 : (rec.recognize st.language_ (grayOf cv st image)).iter with
      | none => simp
      | some segs => simp [collectWords_len_wc, collectWords_len_cb]

/-- Every OCRResult out of extractText carries parallel vectors. -/
theorem extractText_parallel {Img : Type} (cv : CVOps Img) (rec : Recognizer Img)
    (st : EngineState) (path : String) :
    (extractText cv rec st path).words.length =
      (extractText cv rec st path).word_confidences.length ∧
    (extractText cv rec st path).word_confidences.length =
      (extractText cv rec st path).bounding_boxes.length := by
  rw [extractText]
  cases cv.imread path with
  | none => simp [OCRResult.zero]
  | some image => exact extractTextFromMat_parallel cv rec st image

/-- C1: for every OCRResult returned by extractText or extractTextFromMat, on
any image, path and engine state, the words, word_confidences and
bounding_boxes sequences have equal length. -/
theorem claim_C1 {Img : Type} (cv : CVOps Img) (rec : Recognizer Img)
    (st : EngineState) (image : Img) (path : String) :
    ((extractTextFromMat cv rec st image).words.length =
        (extractTextFromMat cv rec st image).word_confidences.length ∧
      (extractTextFromMat cv rec st image).word_confidences.length =
        (extractTextFromMat cv rec st image).bounding_boxes.length) ∧
    ((extractText cv rec st path).words.length =
        (extractText cv rec st path).word_confidences.length ∧
      (extractText cv rec st path).word_confidences.length =
        (extractText cv rec st path).bounding_boxes.length) :=
  ⟨extractTextFromMat_parallel cv rec st image, extractText_parallel cv rec st path⟩

/-- C8: whenever the recognized text is empty, document analysis returns the
zero-valued DocumentInfo: empty document_type, empty detected_fields, empty
extracted_data, and no classification or field extraction is attempted. -/
theorem claim_C8 {Img : Type} (cv : CVOps Img) (rec : Recognizer Img)
    (st : EngineState) (image : Img)
    (h : (extractTextFromMat cv rec st image).text = "") :
    (analyzeDocumentFromMat cv rec st image).document_type = "" ∧
    (analyzeDocumentFromMat cv rec st image).detected_fields = [] ∧
    (analyzeDocumentFromMat cv rec st image).extracted_data = [] := by
  rw [analyzeDocumentFromMat]
  simp [h, DocumentInfo.zero]

/-- C8 witness: a ready engine whose recognizer returns null text yields the
zero-valued analysis result. -/
theorem claim_C8_witness :
    (analyzeDocumentFromMat cvU recE stReady ()).document_type = "" ∧
    (analyzeDocumentFromMat cvU recE stReady ()).detected_fields = [] ∧
    (analyzeDocumentFromMat cvU recE stReady ()).extracted_data = [] :=
  claim_C8 cvU recE stReady () rfl

/-- C9: the stored confidence_threshold is never read by any recognition or
analysis path: results of extractText, extractTextFromMat, analyzeDocument,
analyzeDocumentFromMat and processBatch are identical under any two threshold
values installed by setConfidenceThreshold. -/
theorem claim_C9 {Img : Type} (cv : CVOps Img) (rec : Recognizer Img) (st : EngineState)
    (t1 t2 : Rat) (image : Img) (path : String) (paths : List String) :
    extractText cv rec (setConfidenceThreshold st t1) path =
      extractText cv rec (setConfidenceThreshold st t2) path ∧
    extractTextFromMat cv rec (setConfidenceThreshold st t1) image =
      extractTextFromMat cv rec (setConfidenceThreshold st t2) image ∧
    analyzeDocument cv rec (setConfidenceThreshold st t1) path =
      analyzeDocument cv rec (setConfidenceThreshold st t2) path ∧
    analyzeDocumentFromMat cv rec (setConfidenceThreshold st t1) image =
      analyzeDocumentFromMat cv rec (setConfidenceThreshold st t2) image ∧
    processBatch cv rec (setConfidenceThreshold st t1) paths =
      processBatch cv rec (setConfidenceThreshold st t2) paths :=
  ⟨rfl, rfl, rfl, rfl, rfl⟩

/-- C10: setLanguage on a not-initialized engine only updates the stored
language; no teardown, no init, every other field unchanged, and the engine
stays uninitialized. -/
theorem claim_C10 (st : EngineState) (language : String) (initOk : Bool)
    (h : st.inited_ = false) :
    setLanguage st language initOk = { st with language_ := language } ∧
    (setLanguage st language initOk).inited_ = false ∧
    (setLanguage st language initOk).tessApiPresent = st.tessApiPresent ∧
    (setLanguage st language initOk).confidence_threshold_ = st.confidence_threshold_ ∧
    (setLanguage st language initOk).preprocessing_enabled_ = st.preprocessing_enabled_ := by
  rw [setLanguage]
  simp [h]

/-- C10 witness: setLanguage on the freshly constructed engine only stores the
language. -/
theorem claim_C10_witness :
    setLanguage newEngine "fra" true = { newEngine with language_ := "fra" } :=
  (claim_C10 newEngine "fra" true rfl).1

/-- The field-extraction fold appends, per field in list order, the captured
value to extracted_data and the field name to detected_fields. -/
theorem fieldsFold_spec (text : String) (fs : List String)
    (acc : List (String × String) × List String) :
    fs.foldl
      (fun acc field =>
        match searchFieldS field text with
        | some v => (acc.1 ++ [(field, String.mk v)], acc.2 ++ [field])
        | none => acc) acc =
    (acc.1 ++ fs.filterMap
        (fun f => (searchFieldS f text).map (fun v => (f, String.mk v))),
      acc.2 ++ fs.filter (fun f => (searchFieldS f text).isSome)) := by
  induction fs generalizing acc with
  | nil => simp
  | cons f rest ih =>
    cases h : searchFieldS f text with
    | none => simp [List.foldl_cons, h, ih]
    | some v => simp [List.foldl_cons, h, ih]

/-- Characterization of extractFields: values in field-list order for the
matched fields, detected_fields the matched sublist of the field list. -/
theorem extractFields_spec (text : String) :
    (extractFields text).1 =
      fieldsList.filterMap
        (fun f => (searchFieldS f text).map (fun v => (f, String.mk v))) ∧
    (extractFields text).2 =
      fieldsList.filter (fun f => (searchFieldS f text).isSome) := by
  rw [extractFields, fieldsFold_spec]
  simp

/-- The batch loop is a map over the input paths. -/
theorem batchFold_spec {Img : Type} (cv : CVOps Img) (rec : Recognizer Img)
    (st : EngineState) (paths : List String) (acc : List OCRResult) :
    paths.foldl (fun results path => results ++ [extractText cv rec st path]) acc =
      acc ++ paths.map (extractText cv rec st) := by
  induction paths generalizing acc with
  | nil => simp
  | cons p rest ih => simp [ih]

/-- processBatch is exactly one extractText per path, in input order. -/
theorem processBatch_eq_map {Img : Type} (cv : CVOps Img) (rec : Recognizer Img)
    (st : EngineState) (paths : List String) :
    processBatch cv rec st paths = paths.map (extractText cv rec st) := by
  rw [processBatch, batchFold_spec]
  simp

/-- C2: on an initialized engine (with the Pix raster created), the raster
handed to the primitive is the grayscale conversion of the preprocessed image
when preprocessing is enabled (of the input otherwise), and the result's text
and confidence are the primitive's full text and mean confidence while the
three word-level vectors are the primitive's non-null word segments in
emission order, not re-sorted. -/
theorem claim_C2 {Img : Type} (cv : CVOps Img) (rec : Recognizer Img) (st : EngineState)
    (image : Img) (segs : List WordSegment)
    (hinit : st.inited_ = true)
    (hpix : cv.pixCreateOk (grayOf cv st image) = true)
    (hiter : (rec.recognize st.language_ (grayOf cv st image)).iter = some segs) :
    grayOf cv st image =
      cv.cvtColorGray (if st.preprocessing_enabled_ then preprocessImage cv image else image) ∧
    extractTextFromMat cv rec st image =
      { text := (rec.recognize st.language_ (grayOf cv st image)).text.getD "",
        confidence := (rec.recognize st.language_ (grayOf cv st image)).meanConf,
        bounding_boxes := (segs.filter (fun s => s.word.isSome)).map segRect,
        words := segs.filterMap WordSegment.word,
        word_confidences := (segs.filter (fun s => s.word.isSome)).map WordSegment.conf } := by
  refine ⟨rfl, ?_⟩
  rw [extractTextFromMat, if_neg (by simp [hinit]), if_neg (by simp [hpix])]
  unfold assembleResult
  rw [hiter]
  simp [collectWords_words, collectWords_confs, collectWords_boxes]

/-- C2 witness: a concrete ready engine with a one-word recognizer. -/
theorem claim_C2_witness :
    extractTextFromMat cvU recU stReady () =
      { text := "hello", confidence := 80,
        bounding_boxes := [{ x := 0, y := 0, width := 5, height := 7 }],
        words := ["hi"], word_confidences := [90] } := by
  have h := (claim_C2 cvU recU stReady () [seg1] rfl rfl rfl).2
  rw [h]
  decide

/-- C3: deskewImage is the identity when no contours are found or when the
corrected angle has magnitude at most one half; the correction adds 90 to
angles below -45 (so -50 becomes 40) and keeps other angles (such as 10)
as-is; otherwise the image is rotated about its center by the corrected
angle. -/
theorem claim_C3 {Img : Type} (cv : CVOps Img) (input : Img) :
    (cv.findContours input = [] → deskewImage cv input = input) ∧
    (∀ (c : Contour) (rest : List Contour), cv.findContours input = c :: rest →
      ((|adjustAngle (cv.minAreaRectAngle (maxAreaContour cv c rest))| ≤ (1 : Rat) / 2 →
          deskewImage cv input = input) ∧
        ((1 : Rat) / 2 < |adjustAngle (cv.minAreaRectAngle (maxAreaContour cv c rest))| →
          deskewImage cv input =
            cv.rotate input ((cv.cols input : Rat) / 2, (cv.rows input : Rat) / 2)
              (adjustAngle (cv.minAreaRectAngle (maxAreaContour cv c rest)))))) ∧
    adjustAngle (-50) = 40 ∧ adjustAngle 10 = 10 := by
  refine ⟨?_, ?_, by norm_num [adjustAngle], by norm_num [adjustAngle]⟩
  · intro h
    simp [deskewImage, h]
  · intro c rest h
    constructor
    · intro hle
      simp only [deskewImage, h]
      rw [if_neg (not_lt.mpr hle)]
    · intro hlt
      simp only [deskewImage, h]
      rw [if_pos hlt]

/-- C3 witness: one contour with raw angle -50, corrected to 40, rotation
branch taken. -/
theorem claim_C3_witness :
    adjustAngle (cvC.minAreaRectAngle (maxAreaContour cvC [((0 : Int), (0 : Int))] [])) = 40 ∧
    deskewImage cvC () =
      cvC.rotate () ((cvC.cols () : Rat) / 2, (cvC.rows () : Rat) / 2)
        (adjustAngle (cvC.minAreaRectAngle (maxAreaContour cvC [((0 : Int), (0 : Int))] []))) := by
  have hraw : cvC.minAreaRectAngle (maxAreaContour cvC [((0 : Int), (0 : Int))] []) = -50 := rfl
  have hang : adjustAngle (cvC.minAreaRectAngle (maxAreaContour cvC [((0 : Int), (0 : Int))] [])) = 40 := by
    rw [hraw]
    norm_num [adjustAngle]
  refine ⟨hang, ?_⟩
  refine ((claim_C3 cvC ()).2.1 [((0 : Int), (0 : Int))] [] rfl).2 ?_
  rw [hang]
  norm_num

/-- C4: document-type classification lower-cases the text and assigns the
label of the first keyword group matching as a substring, in the fixed order
invoice/bill, receipt, contract/agreement, financial/report, else unknown;
text with both invoice and contract classifies invoice; text with no keyword
classifies unknown; and for nonempty recognized text the analysis result
carries exactly this classification. -/
theorem claim_C4 :
    (∀ text : String,
      ((strContains (toLowerStr text) "invoice" || strContains (toLowerStr text) "bill") = true →
        documentType text = "invoice") ∧
      ((strContains (toLowerStr text) "invoice" || strContains (toLowerStr text) "bill") = false →
        strContains (toLowerStr text) "receipt" = true → documentType text = "receipt") ∧
      ((strContains (toLowerStr text) "invoice" || strContains (toLowerStr text) "bill") = false →
        strContains (toLowerStr text) "receipt" = false →
        (strContains (toLowerStr text) "contract" ||
          strContains (toLowerStr text) "agreement") = true →
        documentType text = "contract") ∧
      ((strContains (toLowerStr text) "invoice" || strContains (toLowerStr text) "bill") = false →
        strContains (toLowerStr text) "receipt" = false →
        (strContains (toLowerStr text) "contract" ||
          strContains (toLowerStr text) "agreement") = false →
        (strContains (toLowerStr text) "financial" ||
          strContains (toLowerStr text) "report") = true →
        documentType text = "financial_report") ∧
      ((strContains (toLowerStr text) "invoice" || strContains (toLowerStr text) "bill") = false →
        strContains (toLowerStr text) "receipt" = false →
        (strContains (toLowerStr text) "contract" ||
          strContains (toLowerStr text) "agreement") = false →
        (strContains (toLowerStr text) "financial" ||
          strContains (toLowerStr text) "report") = false →
        documentType text = "unknown")) ∧
    documentType "This Invoice is also a contract" = "invoice" ∧
    documentType "nothing to see here" = "unknown" ∧
    (∀ (Img : Type) (cv : CVOps Img) (rec : Recognizer Img) (st : EngineState) (image : Img),
      (extractTextFromMat cv rec st image).text ≠ "" →
      (analyzeDocumentFromMat cv rec st image).document_type =
        documentType (extractTextFromMat cv rec st image).text) := by
  refine ⟨fun text => ⟨?_, ?_, ?_, ?_, ?_⟩, by decide, by decide, ?_⟩
  · intro h1
    simp [documentType, h1]
  · intro h1 h2
    simp [documentType, h1, h2]
  · intro h1 h2 h3
    simp [documentType, h1, h2, h3]
  · intro h1 h2 h3 h4
    simp [documentType, h1, h2, h3, h4]
  · intro h1 h2 h3 h4
    simp [documentType, h1, h2, h3, h4]
  · intro Img cv rec st image h
    rw [analyzeDocumentFromMat]
    simp [h]

/-- C4 witness: concrete classification through the analysis path. -/
theorem claim_C4_witness :
    documentType "Invoice" = "invoice" ∧
    (analyzeDocumentFromMat cvU recDoc stReady ()).document_type = "invoice" := by
  refine ⟨(claim_C4.1 "Invoice").1 (by decide), ?_⟩
  have h := claim_C4.2.2.2 Unit cvU recDoc stReady () (by decide)
  rw [h]
  decide

/-- C5: field extraction walks the fixed field list date, amount, total, name,
address, phone, email; per field the original-case text is searched
case-insensitively for field, optional whitespace, colon or equals, optional
whitespace, then the value up to the line break; only the first match counts,
unmatched fields are omitted, detected_fields is in field-list order; the
example text yields total and date with date listed first. -/
theorem claim_C5 :
    (∀ text : String,
      (extractFields text).1 =
        fieldsList.filterMap
          (fun f => (searchFieldS f text).map (fun v => (f, String.mk v))) ∧
      (extractFields text).2 =
        fieldsList.filter (fun f => (searchFieldS f text).isSome)) ∧
    extractFields "Total: $450.00\nDate=2024-01-05" =
      ([("date", "2024-01-05"), ("total", "$450.00")], ["date", "total"]) ∧
    (searchField "date".toList "date: A\ndate: B".toList).map String.mk = some "A" ∧
    (searchField "date".toList "DATE=2024".toList).map String.mk = some "2024" ∧
    (∀ (Img : Type) (cv : CVOps Img) (rec : Recognizer Img) (st : EngineState) (image : Img),
      (extractTextFromMat cv rec st image).text ≠ "" →
      (analyzeDocumentFromMat cv rec st image).detected_fields =
          (extractFields (extractTextFromMat cv rec st image).text).2 ∧
        (analyzeDocumentFromMat cv rec st image).extracted_data =
          (extractFields (extractTextFromMat cv rec st image).text).1) := by
  refine ⟨extractFields_spec, by decide, by decide, by decide, ?_⟩
  intro Img cv rec st image h
  rw [analyzeDocumentFromMat]
  simp [h]

/-- C5 witness: field extraction through the analysis path on the example
document. -/
theorem claim_C5_witness :
    (analyzeDocumentFromMat cvU recDoc stReady ()).detected_fields = ["date", "total"] ∧
    (analyzeDocumentFromMat cvU recDoc stReady ()).extracted_data =
      [("date", "2024-01-05"), ("total", "$450.00")] := by
  have h := claim_C5.2.2.2.2 Unit cvU recDoc stReady () (by decide)
  refine ⟨?_, ?_⟩
  · rw [h.1]
    decide
  · rw [h.2]
    decide

/-- C6: processBatch returns one result per path in input order (a map of
extractText), an unreadable path yields the zero OCRResult in its slot, and
the consumer average confidence is the arithmetic mean, 0 on an empty batch,
70 on confidences 80 and 60. -/
theorem claim_C6 {Img : Type} (cv : CVOps Img) (rec : Recognizer Img) (st : EngineState)
    (paths : List String) :
    processBatch cv rec st paths = paths.map (extractText cv rec st) ∧
    (processBatch cv rec st paths).length = paths.length ∧
    (∀ path, cv.imread path = none → extractText cv rec st path = OCRResult.zero) ∧
    averageConfidence [] = 0 ∧
    (∀ r1 r2 : OCRResult, r1.confidence = 80 → r2.confidence = 60 →
      averageConfidence [r1, r2] = 70) := by
  refine ⟨processBatch_eq_map cv rec st paths, ?_, ?_, rfl, ?_⟩
  · rw [processBatch_eq_map]
    simp
  · intro path h
    simp [extractText, h]
  · intro r1 r2 h1 h2
    simp [averageConfidence, h1, h2]
    norm_num

/-- C6 witness: a two-item batch of unreadable paths and the 80/60 average. -/
theorem claim_C6_witness :
    processBatch cvU recU stReady ["a", "b"] = [OCRResult.zero, OCRResult.zero] ∧
    extractText cvU recU stReady "a" = OCRResult.zero ∧
    averageConfidence
      [{ OCRResult.zero with confidence := 80 }, { OCRResult.zero with confidence := 60 }] = 70 := by
  have h := claim_C6 cvU recU stReady ["a", "b"]
  refine ⟨?_, h.2.2.1 "a" rfl,
    h.2.2.2.2 { OCRResult.zero with confidence := 80 }
      { OCRResult.zero with confidence := 60 } rfl rfl⟩
  rw [h.1]
  decide

/-- C7: setLanguage on an initialized engine is teardown followed by the init
sequence; when that re-init fails the flag is false and every recognition
call returns the zero OCRResult, until a later successful init sets the flag
again. -/
theorem claim_C7 (st : EngineState) (language : String) (hinit : st.inited_ = true) :
    (∀ initOk, setLanguage st language initOk =
      (initEngine (cleanup { st with language_ := language }) initOk).2) ∧
    (setLanguage st language false).inited_ = false ∧
    (∀ (Img : Type) (cv : CVOps Img) (rec : Recognizer Img) (image : Img),
      extractTextFromMat cv rec (setLanguage st language false) image = OCRResult.zero) ∧
    (∀ (Img : Type) (cv : CVOps Img) (rec : Recognizer Img) (path : String),
      extractText cv rec (setLanguage st language false) path = OCRResult.zero) ∧
    (initEngine (setLanguage st language false) true).2.inited_ = true := by
  have hsl : ∀ initOk, setLanguage st language initOk =
      (initEngine (cleanup { st with language_ := language }) initOk).2 := by
    intro initOk
    rw [setLanguage]
    simp [hinit]
  have hflag : (setLanguage st language false).inited_ = false := by
    rw [hsl]
    rfl
  refine ⟨hsl, hflag, ?_, ?_, ?_⟩
  · intro Img cv rec image
    rw [extractTextFromMat, if_pos hflag]
  · intro Img cv rec path
    cases h : cv.imread path with
    | none => simp [extractText, h]
    | some image =>
      simp only [extractText, h]
      rw [extractTextFromMat, if_pos hflag]
  · rw [hsl]
    rfl

/-- C7 witness: failed re-init on a ready engine blocks recognition. -/
theorem claim_C7_witness :
    (setLanguage stReady "fra" false).inited_ = false ∧
    extractTextFromMat cvU recU (setLanguage stReady "fra" false) () = OCRResult.zero := by
  have h := claim_C7 stReady "fra" rfl
  exact ⟨h.2.1, h.2.2.1 Unit cvU recU ()⟩
